import Mathlib

/-!
Shallow embedding of the go-ipintel client library (src/ipintel.go) and
verification of its specification claims.

The library is a wrapper for the getipintel.net proxy-detection API:
a `Client` holds configuration (email, scheme, check mode, max wait),
`GetProxyScore` acquires a token from a shared process-wide token bucket,
issues one HTTP GET and decodes the JSON response into a score or an error.

Modelling conventions:
* Go strings are Lean `String`; `time.Duration` and time instants are `Nat`
  in abstract time units in which the bucket refill interval is 4 (the
  source uses 4 seconds); `float32` scores are modelled as `ℚ` (every score
  occurring here — 0, 1, 0.5 — is exact in float32 and the code does no
  arithmetic on scores, only pass-through).
* Go's `error` results are an inductive `GoError`, one constructor per
  `fmt.Errorf` site in `GetProxyScore`, carrying the interpolated payload.
* Effects of one `GetProxyScore` call (was an HTTP request performed, was
  the body handed to the JSON decoder, the bucket's post-state) are made
  explicit fields of the result record, so that claims about "no network
  call" and "no token consumed" are statable.
* The external pieces the code calls into — `http.NewRequest` failure,
  `httpClient.Do`'s outcome, and `json.Decoder.Decode` — are oracles passed
  to the model as arguments, since their code is outside this repository.
-/

namespace IPIntel

/-- `version = "0.2.0"` from ipintel.go. -/
def version : String := "0.2.0"

/-- `urlBase = "check.getipintel.net/check.php"` from ipintel.go. -/
def urlBase : String := "check.getipintel.net/check.php"

/-- `userAgent = "go-ipintel/" + version + " (github.com/janeczku/go-ipintel)"`. -/
def userAgent : String := "go-ipintel/" ++ version ++ " (github.com/janeczku/go-ipintel)"

/-- Go: `type CheckType string`. -/
abbrev CheckType := String

/-- `Static CheckType = "m"`: static-list check, binary score. -/
def Static : CheckType := "m"

/-- `Dynamic CheckType = "b"`: lists plus machine learning, score in [0,1]. -/
def Dynamic : CheckType := "b"

/-- The `Client` struct of ipintel.go: contact email, request scheme,
check mode, and the maximum wait when a query is throttled. -/
structure Client where
  Email : String
  Scheme : String
  Check : CheckType
  MaxWait : Nat
deriving Repr, DecidableEq

/-- `NewClient(email, ssl, check, mWait)` from ipintel.go: scheme is
"https" when ssl, otherwise "http"; the other fields are copied. -/
def NewClient (email : String) (ssl : Bool) (check : CheckType) (mWait : Nat) : Client :=
  let scheme := if ssl then "https" else "http"
  { Email := email, Scheme := scheme, Check := check, MaxWait := mWait }

/-- `(c *Client) getURL(ip)`: `fmt.Sprintf("%s://%s?ip=%s&contact=%s&flags=%s&format=json",
c.Scheme, urlBase, ip, c.Email, c.Check)`. -/
def Client.getURL (c : Client) (ip : String) : String :=
  c.Scheme ++ "://" ++ urlBase ++ "?ip=" ++ ip ++ "&contact=" ++ c.Email ++
    "&flags=" ++ c.Check ++ "&format=json"

/-- Token-bucket capacity: 15 tokens (spec section 3/4.1; source:
`ratelimit.NewBucketWithQuantum(4*time.Second, 15, 1)`). -/
def capacity : Int := 15

/-- Refill quantum: 1 token per interval. -/
def quantum : Int := 1

/-- Refill interval in abstract time units (source: 4 seconds). -/
def fillInterval : Nat := 4

/-- Modelled from the spec: the state of the shared token bucket of
`github.com/juju/ratelimit`, whose code is an external dependency not under
src/. The spec (sections 3 and 4.1) describes it as a lazily refilled bucket
with capacity 15, quantum 1 per 4-second interval: we keep the current token
count and the last refill tick. -/
structure Bucket where
  availableTokens : Int
  latestTick : Nat
deriving Repr, DecidableEq

/-- The shared process-wide limiter starts full (burst capacity 15 available
immediately), at tick 0. -/
def rateLimiter : Bucket := { availableTokens := capacity, latestTick := 0 }

/-- Modelled from the spec: lazy refill at tick `tick` — add `quantum` tokens
per elapsed interval, capped at `capacity`; a tick not later than the last
seen one changes nothing. -/
def Bucket.refill (b : Bucket) (tick : Nat) : Bucket :=
  if tick ≤ b.latestTick then b
  else
    { availableTokens := min capacity (b.availableTokens + quantum * ((tick : Int) - b.latestTick)),
      latestTick := tick }

/-- Consuming one token (the count may go negative: a caller that committed
to waiting holds a debt on future refills). -/
def Bucket.consume (b : Bucket) : Bucket :=
  { b with availableTokens := b.availableTokens - 1 }

/-- Time a caller arriving at `now` must wait until the bucket, holding
`b.availableTokens` after refill, has one token for it. -/
def Bucket.waitTime (b : Bucket) (now : Nat) : Int :=
  let need : Int := 1 - b.availableTokens
  let waitTicks : Int := (need + quantum - 1) / quantum
  ((b.latestTick : Int) + waitTicks) * (fillInterval : Int) - (now : Int)

/-- Outcome of one acquisition: a token was available at once (`granted`),
the caller committed to waiting and then got one (`grantedAfterWait`), or no
token would arrive within `maxWait` and none was consumed (`denied`). -/
inductive AcqOutcome where
  | granted
  | grantedAfterWait
  | denied
deriving Repr, DecidableEq

/-- Modelled from the spec: `acquire(1, maxWait)` of the shared bucket
(spec section 4.1, the contract of `rateLimiter.WaitMaxDuration(1, c.MaxWait)`):
refill lazily; if a token is available take it at once; otherwise a zero
`maxWait` blocks indefinitely until the token arrives, a positive `maxWait`
succeeds only if the wait fits in the window, and on failure no token is
consumed. -/
def Bucket.acquire (b : Bucket) (now maxWait : Nat) : AcqOutcome × Bucket :=
  let b1 := b.refill (now / fillInterval)
  if 1 ≤ b1.availableTokens then (.granted, b1.consume)
  else if maxWait = 0 ∨ b1.waitTime now ≤ (maxWait : Int) then (.grantedAfterWait, b1.consume)
  else (.denied, b1)

/-- Running a sequence of acquisitions against one shared bucket, in order:
each request is a pair (arrival time, maxWait). Returns the outcomes and the
final bucket state. -/
def Bucket.runAcquires (b : Bucket) : List (Nat × Nat) → List AcqOutcome × Bucket
  | [] => ([], b)
  | (now, mw) :: rest =>
    let r := b.acquire now mw
    let tail := r.snd.runAcquires rest
    (r.fst :: tail.fst, tail.snd)

/-- Number of acquisitions that succeeded immediately (a token was available
without any waiting). -/
def countImmediate : List AcqOutcome → Nat
  | [] => 0
  | AcqOutcome.granted :: os => countImmediate os + 1
  | _ :: os => countImmediate os

/-- The error taxonomy of `GetProxyScore`, one constructor per `fmt.Errorf`
site, carrying the interpolated payload. -/
inductive GoError where
  | throttled (maxWait : Nat)
  | prepareFailed (inner : String)
  | queryFailed (inner : String)
  | rateLimitExceeded
  | parseFailed (inner : String)
  | apiError (msg : String)
deriving Repr, DecidableEq

/-- The formatted message of each error, following the `fmt.Errorf` format
strings of ipintel.go. (Go renders the `throttled` duration with units via
`time.Duration.String`; the payload here is the raw number — no claim
depends on that rendering.) -/
def GoError.text : GoError → String
  | .throttled maxWait => "Throttled: Can\x27t make query within the next " ++ toString maxWait
  | .prepareFailed inner => "Failed preparing request: " ++ inner
  | .queryFailed inner => "Failed to query API: " ++ inner
  | .rateLimitExceeded => "API error: Rate limit exceeded"
  | .parseFailed inner => "Failed to parse API response: " ++ inner
  | .apiError msg => "API error: " ++ msg

/-- Whether an error is the local throttling error. -/
def GoError.isThrottled : GoError → Bool
  | .throttled _ => true
  | _ => false

/-- The JSON response shape of the service: `status`, `message`, and `result`
(a score transmitted as a string, decoded by the `,string` struct tag). -/
structure Response where
  Status : String
  ErrMsg : String
  Score : ℚ
deriving Repr, DecidableEq

/-- Outcome of `httpClient.Do`: a transport failure or a response with a
status code and a body. -/
inductive HTTPOutcome where
  | failure (msg : String)
  | response (statusCode : Nat) (body : String)
deriving Repr, DecidableEq

/-- Result of one `GetProxyScore` call: the returned (score, error) pair plus
explicit effects — whether an HTTP request was performed, whether the body
was handed to the JSON decoder, and the bucket's post-state. -/
structure GPSResult where
  score : ℚ
  error : Option GoError
  httpDone : Bool
  decoded : Bool
  bucket : Bucket
deriving Repr, DecidableEq

/-- `(c *Client) GetProxyScore(ip)` of ipintel.go, over the bucket state `b`
at time `now` and the oracles for the external calls: `reqErr` is
`http.NewRequest`'s error (if any), `ho` is `httpClient.Do`'s outcome, and
`decode` is `json.Decoder.Decode` on the body. The Go control flow in order:
throttle check, request construction, transport, the 429 check before any
decoding, JSON decode, the `status != "success"` check, then the score. The
named return `score` keeps its zero value on every error path. The function
is total: no input can make it panic. -/
def Client.GetProxyScore (c : Client) (b : Bucket) (now : Nat)
    (reqErr : Option String) (ho : HTTPOutcome)
    (decode : String → Except String Response) : GPSResult :=
  let a := b.acquire now c.MaxWait
  if a.fst = .denied then
    { score := 0, error := some (.throttled c.MaxWait), httpDone := false,
      decoded := false, bucket := a.snd }
  else
    match reqErr with
    | some e =>
        { score := 0, error := some (.prepareFailed e), httpDone := false,
          decoded := false, bucket := a.snd }
    | none =>
      match ho with
      | .failure e =>
          { score := 0, error := some (.queryFailed e), httpDone := true,
            decoded := false, bucket := a.snd }
      | .response code body =>
        if code = 429 then
          { score := 0, error := some .rateLimitExceeded, httpDone := true,
            decoded := false, bucket := a.snd }
        else
          match decode body with
          | .error e =>
              { score := 0, error := some (.parseFailed e), httpDone := true,
                decoded := true, bucket := a.snd }
          | .ok r =>
            if r.Status ≠ "success" then
              { score := 0, error := some (.apiError r.ErrMsg), httpDone := true,
                decoded := true, bucket := a.snd }
            else
              { score := r.Score, error := none, httpDone := true,
                decoded := true, bucket := a.snd }

end IPIntel

namespace IPIntel

/-- C3: for the client with Scheme "http", Email "a@b.com", Check Static, the
URL built for ip "1.2.3.4" is exactly
`http://check.getipintel.net/check.php?ip=1.2.3.4&contact=a@b.com&flags=m&format=json`;
and in general `getURL` is the deterministic concatenation of scheme, the fixed
host, the raw ip, the raw email and the check-mode flag. -/
theorem C3_getURL_exact :
    (Client.getURL { Email := "a@b.com", Scheme := "http", Check := Static, MaxWait := 0 }
        "1.2.3.4"
      = "http://check.getipintel.net/check.php?ip=1.2.3.4&contact=a@b.com&flags=m&format=json")
    ∧ ∀ (c : Client) (ip : String),
        c.getURL ip
          = c.Scheme ++ "://check.getipintel.net/check.php?ip=" ++ ip ++ "&contact="
              ++ c.Email ++ "&flags=" ++ c.Check ++ "&format=json" := by
  constructor
  · rfl
  · intro c ip
    simp [Client.getURL, urlBase, String.append_assoc]

/-- C8: `NewClient email ssl check mWait` copies email, check and mWait into
the respective fields and sets Scheme to "https" exactly when ssl is true,
"http" when it is false. -/
theorem C8_NewClient_fields (email : String) (ssl : Bool) (check : CheckType) (mWait : Nat) :
    (NewClient email ssl check mWait).Email = email
    ∧ (NewClient email ssl check mWait).Scheme = (if ssl then "https" else "http")
    ∧ (NewClient email ssl check mWait).Check = check
    ∧ (NewClient email ssl check mWait).MaxWait = mWait := by
  cases ssl <;> simp [NewClient]

/-- With a zero `maxWait` an acquisition blocks (possibly forever) but is
never denied. -/
theorem acquire_zero_not_denied (b : Bucket) (now : Nat) :
    (b.acquire now 0).fst ≠ AcqOutcome.denied := by
  by_cases h1 : 1 ≤ (b.refill (now / fillInterval)).availableTokens
  · simp [Bucket.acquire, h1]
  · simp [Bucket.acquire, h1]

/-- A denied acquisition leaves the bucket as the lazy refill left it: no
token is consumed. -/
theorem acquire_snd_of_denied (b : Bucket) (now mw : Nat)
    (h : (b.acquire now mw).fst = AcqOutcome.denied) :
    (b.acquire now mw).snd = b.refill (now / fillInterval) := by
  by_cases h1 : 1 ≤ (b.refill (now / fillInterval)).availableTokens
  · simp [Bucket.acquire, h1] at h
  · by_cases h2 : mw = 0 ∨ (b.refill (now / fillInterval)).waitTime now ≤ (mw : Int)
    · simp [Bucket.acquire, h1, h2] at h
    · simp [Bucket.acquire, h1, h2]

/-- C1: for a client with `MaxWait = 0`, token acquisition is never denied
(it blocks as long as needed), so `GetProxyScore` never returns the
throttling error, whatever the bucket state and the outcomes of the
external calls. -/
theorem C1_maxWait_zero_never_throttled (c : Client) (b : Bucket) (now : Nat)
    (reqErr : Option String) (ho : HTTPOutcome) (decode : String → Except String Response)
    (h : c.MaxWait = 0) :
    (b.acquire now c.MaxWait).fst ≠ AcqOutcome.denied
    ∧ ((c.GetProxyScore b now reqErr ho decode).error.all fun e => !e.isThrottled) = true := by
  have hnd : (b.acquire now c.MaxWait).fst ≠ AcqOutcome.denied := by
    rw [h]; exact acquire_zero_not_denied b now
  refine ⟨hnd, ?_⟩
  cases reqErr with
  | some e => simp [Client.GetProxyScore, hnd, GoError.isThrottled]
  | none =>
    cases ho with
    | failure e => simp [Client.GetProxyScore, hnd, GoError.isThrottled]
    | response code body =>
      by_cases h429 : code = 429
      · simp [Client.GetProxyScore, hnd, h429, GoError.isThrottled]
      · cases hdec : decode body with
        | error e => simp [Client.GetProxyScore, hnd, h429, hdec, GoError.isThrottled]
        | ok r =>
          by_cases hs : r.Status = "success"
          · simp [Client.GetProxyScore, hnd, h429, hdec, hs, GoError.isThrottled]
          · simp [Client.GetProxyScore, hnd, h429, hdec, hs, GoError.isThrottled]

/-- Witness for C1: a client with `MaxWait = 0` against an EMPTY bucket, with
a decoder that always fails, still gets no throttling error. -/
theorem C1_maxWait_zero_never_throttled_witness :
    ({ Email := "a@b.com", Scheme := "http", Check := Static, MaxWait := 0 } : Client).MaxWait = 0
    ∧ (({ availableTokens := 0, latestTick := 0 } : Bucket).acquire 0
        ({ Email := "a@b.com", Scheme := "http", Check := Static, MaxWait := 0 } : Client).MaxWait).fst
        ≠ AcqOutcome.denied
    ∧ ((({ Email := "a@b.com", Scheme := "http", Check := Static, MaxWait := 0 } : Client).GetProxyScore
          { availableTokens := 0, latestTick := 0 } 0 none (.response 200 "not json")
          (fun _ => .error "unexpected end of JSON input")).error.all fun e => !e.isThrottled) = true :=
  ⟨rfl,
    (C1_maxWait_zero_never_throttled _ { availableTokens := 0, latestTick := 0 } 0 none
      (.response 200 "not json") (fun _ => .error "unexpected end of JSON input") rfl).1,
    (C1_maxWait_zero_never_throttled _ { availableTokens := 0, latestTick := 0 } 0 none
      (.response 200 "not json") (fun _ => .error "unexpected end of JSON input") rfl).2⟩

/-- C2: when the limiter denies the token within `MaxWait`, `GetProxyScore`
returns the throttling error at once, performs no HTTP request, hands
nothing to the decoder, and consumes no token (the bucket is exactly what
the lazy refill left). -/
theorem C2_denied_throttles_without_effects (c : Client) (b : Bucket) (now : Nat)
    (reqErr : Option String) (ho : HTTPOutcome) (decode : String → Except String Response)
    (h : (b.acquire now c.MaxWait).fst = AcqOutcome.denied) :
    (c.GetProxyScore b now reqErr ho decode).error = some (GoError.throttled c.MaxWait)
    ∧ (c.GetProxyScore b now reqErr ho decode).httpDone = false
    ∧ (c.GetProxyScore b now reqErr ho decode).decoded = false
    ∧ (c.GetProxyScore b now reqErr ho decode).bucket = b.refill (now / fillInterval) := by
  have hsnd := acquire_snd_of_denied b now c.MaxWait h
  simp [Client.GetProxyScore, h, hsnd]

/-- Witness for C2: an empty bucket and `MaxWait = 1` (shorter than the 4-unit
refill interval) denies, throttles, and leaves the empty bucket unchanged. -/
theorem C2_denied_throttles_without_effects_witness :
    (({ availableTokens := 0, latestTick := 0 } : Bucket).acquire 0 1).fst = AcqOutcome.denied
    ∧ (({ Email := "a@b.com", Scheme := "http", Check := Static, MaxWait := 1 } : Client).GetProxyScore
        { availableTokens := 0, latestTick := 0 } 0 none (.response 200 "ok")
        (fun _ => .error "never")).error = some (GoError.throttled 1)
    ∧ (({ Email := "a@b.com", Scheme := "http", Check := Static, MaxWait := 1 } : Client).GetProxyScore
        { availableTokens := 0, latestTick := 0 } 0 none (.response 200 "ok")
        (fun _ => .error "never")).httpDone = false
    ∧ (({ Email := "a@b.com", Scheme := "http", Check := Static, MaxWait := 1 } : Client).GetProxyScore
        { availableTokens := 0, latestTick := 0 } 0 none (.response 200 "ok")
        (fun _ => .error "never")).bucket
        = ({ availableTokens := 0, latestTick := 0 } : Bucket).refill (0 / fillInterval) := by
  have h : (({ availableTokens := 0, latestTick := 0 } : Bucket).acquire 0 1).fst
      = AcqOutcome.denied := by decide
  have c2 := C2_denied_throttles_without_effects
    { Email := "a@b.com", Scheme := "http", Check := Static, MaxWait := 1 }
    { availableTokens := 0, latestTick := 0 } 0 none (.response 200 "ok")
    (fun _ => .error "never") h
  exact ⟨h, c2.1, c2.2.1, c2.2.2.2⟩

/-- C4: an HTTP 429 response yields the rate-limit-exceeded error for every
body, and the body is never handed to the JSON decoder. -/
theorem C4_status_429_rate_limited (c : Client) (b : Bucket) (now : Nat)
    (body : String) (decode : String → Except String Response)
    (hnd : (b.acquire now c.MaxWait).fst ≠ AcqOutcome.denied) :
    (c.GetProxyScore b now none (.response 429 body) decode).error
        = some GoError.rateLimitExceeded
    ∧ (c.GetProxyScore b now none (.response 429 body) decode).decoded = false := by
  simp [Client.GetProxyScore, hnd]

/-- Witness for C4: a full bucket, a 429 response with a perfectly decodable
body, and a decoder that would succeed — still rate-limit-exceeded, body
untouched. -/
theorem C4_status_429_rate_limited_witness :
    (rateLimiter.acquire 0 0).fst ≠ AcqOutcome.denied
    ∧ (({ Email := "a@b.com", Scheme := "http", Check := Static, MaxWait := 0 } : Client).GetProxyScore
        rateLimiter 0 none (.response 429 "\x7bstatus: success\x7d")
        (fun _ => .ok { Status := "success", ErrMsg := "", Score := 1 })).error
        = some GoError.rateLimitExceeded
    ∧ (({ Email := "a@b.com", Scheme := "http", Check := Static, MaxWait := 0 } : Client).GetProxyScore
        rateLimiter 0 none (.response 429 "\x7bstatus: success\x7d")
        (fun _ => .ok { Status := "success", ErrMsg := "", Score := 1 })).decoded = false := by
  have hnd : (rateLimiter.acquire 0 0).fst ≠ AcqOutcome.denied := by decide
  have c4 := C4_status_429_rate_limited
    { Email := "a@b.com", Scheme := "http", Check := Static, MaxWait := 0 }
    rateLimiter 0 "\x7bstatus: success\x7d"
    (fun _ => .ok { Status := "success", ErrMsg := "", Score := 1 }) hnd
  exact ⟨hnd, c4.1, c4.2⟩

/-- C5: for a non-429 response whose body decodes to a record with status
"success", `GetProxyScore` returns the decoded score and no error. -/
theorem C5_success_returns_score (c : Client) (b : Bucket) (now : Nat)
    (code : Nat) (body : String) (decode : String → Except String Response) (r : Response)
    (hnd : (b.acquire now c.MaxWait).fst ≠ AcqOutcome.denied)
    (h429 : code ≠ 429)
    (hdec : decode body = .ok r)
    (hs : r.Status = "success") :
    (c.GetProxyScore b now none (.response code body) decode).score = r.Score
    ∧ (c.GetProxyScore b now none (.response code body) decode).error = none := by
  simp [Client.GetProxyScore, hnd, h429, hdec, hs]

/-- Witness for C5: a 200 response decoding to status "success" and result
0.5 yields score 0.5 and no error. -/
theorem C5_success_returns_score_witness :
    (rateLimiter.acquire 0 0).fst ≠ AcqOutcome.denied
    ∧ (200 : Nat) ≠ 429
    ∧ ((fun _ => .ok { Status := "success", ErrMsg := "", Score := (1 : ℚ) / 2 } :
          String → Except String Response) "body" = .ok { Status := "success", ErrMsg := "", Score := (1 : ℚ) / 2 })
    ∧ (({ Email := "a@b.com", Scheme := "http", Check := Static, MaxWait := 0 } : Client).GetProxyScore
        rateLimiter 0 none (.response 200 "body")
        (fun _ => .ok { Status := "success", ErrMsg := "", Score := (1 : ℚ) / 2 })).score = (1 : ℚ) / 2
    ∧ (({ Email := "a@b.com", Scheme := "http", Check := Static, MaxWait := 0 } : Client).GetProxyScore
        rateLimiter 0 none (.response 200 "body")
        (fun _ => .ok { Status := "success", ErrMsg := "", Score := (1 : ℚ) / 2 })).error = none := by
  have hnd : (rateLimiter.acquire 0 0).fst ≠ AcqOutcome.denied := by decide
  have c5 := C5_success_returns_score
    { Email := "a@b.com", Scheme := "http", Check := Static, MaxWait := 0 }
    rateLimiter 0 200 "body"
    (fun _ => .ok { Status := "success", ErrMsg := "", Score := (1 : ℚ) / 2 })
    { Status := "success", ErrMsg := "", Score := (1 : ℚ) / 2 }
    hnd (by decide) rfl rfl
  exact ⟨hnd, by decide, rfl, c5.1, c5.2⟩

/-- C6: a decodable non-429 response whose status is not "success" yields the
API error carrying exactly the service-supplied message field, and the
formatted error text contains that message as a substring. -/
theorem C6_non_success_carries_message (c : Client) (b : Bucket) (now : Nat)
    (code : Nat) (body : String) (decode : String → Except String Response) (r : Response)
    (hnd : (b.acquire now c.MaxWait).fst ≠ AcqOutcome.denied)
    (h429 : code ≠ 429)
    (hdec : decode body = .ok r)
    (hs : r.Status ≠ "success") :
    (c.GetProxyScore b now none (.response code body) decode).error
        = some (GoError.apiError r.ErrMsg)
    ∧ ∃ s t, (GoError.apiError r.ErrMsg).text = s ++ r.ErrMsg ++ t := by
  refine ⟨by simp [Client.GetProxyScore, hnd, h429, hdec, hs], "API error: ", "", ?_⟩
  simp [GoError.text]

/-- Witness for C6: status "error" with message "no results" yields an error
whose text contains "no results". -/
theorem C6_non_success_carries_message_witness :
    (rateLimiter.acquire 0 0).fst ≠ AcqOutcome.denied
    ∧ (200 : Nat) ≠ 429
    ∧ (({ Status := "error", ErrMsg := "no results", Score := 0 } : Response).Status ≠ "success")
    ∧ (({ Email := "a@b.com", Scheme := "http", Check := Static, MaxWait := 0 } : Client).GetProxyScore
        rateLimiter 0 none (.response 200 "body")
        (fun _ => .ok { Status := "error", ErrMsg := "no results", Score := 0 })).error
        = some (GoError.apiError "no results")
    ∧ ∃ s t, (GoError.apiError "no results").text = s ++ "no results" ++ t := by
  have hnd : (rateLimiter.acquire 0 0).fst ≠ AcqOutcome.denied := by decide
  have c6 := C6_non_success_carries_message
    { Email := "a@b.com", Scheme := "http", Check := Static, MaxWait := 0 }
    rateLimiter 0 200 "body"
    (fun _ => .ok { Status := "error", ErrMsg := "no results", Score := 0 })
    { Status := "error", ErrMsg := "no results", Score := 0 }
    hnd (by decide) rfl (by decide)
  exact ⟨hnd, by decide, by decide, c6.1, c6.2⟩

/-- C7: when the decoder fails on the body of a non-429 response,
`GetProxyScore` returns the parse error wrapping the decoder's message and
the zero score; the model is a total function, so no input panics. -/
theorem C7_decode_failure_parse_error (c : Client) (b : Bucket) (now : Nat)
    (code : Nat) (body : String) (decode : String → Except String Response) (e : String)
    (hnd : (b.acquire now c.MaxWait).fst ≠ AcqOutcome.denied)
    (h429 : code ≠ 429)
    (hdec : decode body = .error e) :
    (c.GetProxyScore b now none (.response code body) decode).error
        = some (GoError.parseFailed e)
    ∧ (c.GetProxyScore b now none (.response code body) decode).score = 0 := by
  simp [Client.GetProxyScore, hnd, h429, hdec]

/-- Witness for C7: a malformed body whose decode fails yields the parse
error. -/
theorem C7_decode_failure_parse_error_witness :
    (rateLimiter.acquire 0 0).fst ≠ AcqOutcome.denied
    ∧ (200 : Nat) ≠ 429
    ∧ (({ Email := "a@b.com", Scheme := "http", Check := Static, MaxWait := 0 } : Client).GetProxyScore
        rateLimiter 0 none (.response 200 "<html>")
        (fun _ => .error "invalid character")).error
        = some (GoError.parseFailed "invalid character")
    ∧ (({ Email := "a@b.com", Scheme := "http", Check := Static, MaxWait := 0 } : Client).GetProxyScore
        rateLimiter 0 none (.response 200 "<html>")
        (fun _ => .error "invalid character")).score = 0 := by
  have hnd : (rateLimiter.acquire 0 0).fst ≠ AcqOutcome.denied := by decide
  have c7 := C7_decode_failure_parse_error
    { Email := "a@b.com", Scheme := "http", Check := Static, MaxWait := 0 }
    rateLimiter 0 200 "<html>" (fun _ => .error "invalid character") "invalid character"
    hnd (by decide) rfl
  exact ⟨hnd, by decide, c7.1, c7.2⟩

/-- C10: on every path of `GetProxyScore`, either the error is nil or the
returned score is exactly 0 (the named return keeps its zero value on every
error exit). -/
theorem C10_error_implies_zero_score (c : Client) (b : Bucket) (now : Nat)
    (reqErr : Option String) (ho : HTTPOutcome) (decode : String → Except String Response) :
    (c.GetProxyScore b now reqErr ho decode).error = none
    ∨ (c.GetProxyScore b now reqErr ho decode).score = 0 := by
  by_cases hnd : (b.acquire now c.MaxWait).fst = AcqOutcome.denied
  · simp [Client.GetProxyScore, hnd]
  · cases reqErr with
    | some e => simp [Client.GetProxyScore, hnd]
    | none =>
      cases ho with
      | failure e => simp [Client.GetProxyScore, hnd]
      | response code body =>
        by_cases h429 : code = 429
        · simp [Client.GetProxyScore, hnd, h429]
        · cases hdec : decode body with
          | error e => simp [Client.GetProxyScore, hnd, h429, hdec]
          | ok r =>
            by_cases hs : r.Status = "success"
            · simp [Client.GetProxyScore, hnd, h429, hdec, hs]
            · simp [Client.GetProxyScore, hnd, h429, hdec, hs]

/-- Potential of a bucket against a horizon tick `T`: the tokens on hand
(clamped at 0) plus the tokens the refills up to tick `T` can still add.
Every immediate grant strictly decreases it and no other step increases it. -/
def potential (b : Bucket) (T : Nat) : Int :=
  max b.availableTokens 0 + quantum * max ((T : Int) - (b.latestTick : Int)) 0

/-- A lazy refill at a tick within the horizon never increases the
potential: it can add at most `quantum` tokens per elapsed interval, paid for
by the elapsed intervals. -/
theorem refill_potential (b : Bucket) (tick T : Nat) (hT : tick ≤ T) :
    potential (b.refill tick) T ≤ potential b T := by
  unfold potential Bucket.refill
  by_cases h : tick ≤ b.latestTick
  · simp [h]
  · simp only [h, if_false]
    simp only [quantum, capacity, one_mul]
    omega

/-- One acquisition step, booked against the potential: if it was an
immediate grant the potential strictly pays for it, otherwise the potential
does not increase. -/
theorem acquire_potential (b : Bucket) (now mw T : Nat) (hT : now / fillInterval ≤ T) :
    (if (b.acquire now mw).fst = AcqOutcome.granted then (1 : Int) else 0)
      + potential (b.acquire now mw).snd T
    ≤ potential b T := by
  have hr := refill_potential b (now / fillInterval) T hT
  simp only [Bucket.acquire]
  by_cases h1 : 1 ≤ (b.refill (now / fillInterval)).availableTokens
  · simp only [h1, if_true, reduceCtorEq, if_pos]
    simp only [potential, Bucket.consume, quantum, one_mul] at hr ⊢
    omega
  · simp only [h1, if_false]
    by_cases h2 : mw = 0 ∨ (b.refill (now / fillInterval)).waitTime now ≤ (mw : Int)
    · simp only [h2, if_true, reduceCtorEq, if_false]
      simp only [potential, Bucket.consume, quantum, one_mul] at hr h1 ⊢
      omega
    · simp only [h2, if_false, reduceCtorEq]
      simp only [potential, quantum, one_mul] at hr ⊢
      omega

/-- Unfolding `countImmediate` over a cons cell. -/
theorem countImmediate_cons (o : AcqOutcome) (os : List AcqOutcome) :
    countImmediate (o :: os)
      = (if o = AcqOutcome.granted then 1 else 0) + countImmediate os := by
  cases o <;> simp [countImmediate, Nat.add_comm]

/-- Against any starting bucket, the immediate grants of a request sequence
whose arrival ticks all lie within horizon `T` are bounded by the bucket's
potential. -/
theorem runAcquires_countImmediate_le (T : Nat) (reqs : List (Nat × Nat)) :
    ∀ b : Bucket, (∀ p ∈ reqs, p.1 / fillInterval ≤ T) →
      (countImmediate (b.runAcquires reqs).fst : Int) ≤ potential b T := by
  induction reqs with
  | nil =>
    intro b _
    simp only [Bucket.runAcquires, countImmediate, potential, quantum, one_mul,
      Nat.cast_zero]
    omega
  | cons p rest ih =>
    intro b hp
    obtain ⟨now, mw⟩ := p
    have hT : now / fillInterval ≤ T := hp (now, mw) (List.mem_cons_self _ _)
    have hrest : ∀ q ∈ rest, q.1 / fillInterval ≤ T :=
      fun q hq => hp q (List.mem_cons_of_mem _ hq)
    have hpot := acquire_potential b now mw T hT
    have hih := ih (b.acquire now mw).snd hrest
    simp only [Bucket.runAcquires]
    rw [countImmediate_cons]
    by_cases hg : (b.acquire now mw).fst = AcqOutcome.granted
    · rw [if_pos hg] at hpot ⊢
      push_cast
      linarith
    · rw [if_neg hg] at hpot ⊢
      push_cast
      linarith

/-- C9: starting from the shared limiter (full, 15 tokens), for every
sequence of acquisitions whose arrival ticks lie within horizon `T`
(arrival time divided by the 4-unit refill interval is at most `T`), at most
`capacity + quantum * T` of them succeed immediately. With `T = 0` — all
requests inside the first refill interval, i.e. issued faster than any
refill — this is the burst bound 15; each further 4-unit interval adds at
most `quantum = 1` immediate grant. Excess callers block
(`grantedAfterWait`) or are denied per their maxWait, by `Bucket.acquire`. -/
theorem C9_immediate_grants_bounded (reqs : List (Nat × Nat)) (T : Nat)
    (h : ∀ p ∈ reqs, p.1 / fillInterval ≤ T) :
    (countImmediate (rateLimiter.runAcquires reqs).fst : Int)
      ≤ capacity + quantum * (T : Int) := by
  have hb := runAcquires_countImmediate_le T reqs rateLimiter h
  simp only [potential, rateLimiter, capacity, quantum, one_mul, Nat.cast_zero] at hb ⊢
  omega

/-- Witness for C9: twenty immediate back-to-back requests (all at time 0,
maxWait 1) against the fresh limiter: exactly 15 are granted immediately,
within the bound 15. -/
theorem C9_immediate_grants_bounded_witness :
    (∀ p ∈ (List.replicate 20 ((0 : Nat), (1 : Nat))), p.1 / fillInterval ≤ 0)
    ∧ (countImmediate (rateLimiter.runAcquires (List.replicate 20 ((0 : Nat), (1 : Nat)))).fst : Int)
        ≤ capacity + quantum * ((0 : Nat) : Int) :=
  ⟨by decide, C9_immediate_grants_bounded (List.replicate 20 ((0 : Nat), (1 : Nat))) 0 (by decide)⟩

end IPIntel
